import Mathlib

/-!
Verification development for the `curious` chat-service client library.

The definitions below are a shallow embedding of the Python sources under
`src/curious/` (`dataclasses/bases.py`, `dataclasses/emoji.py`,
`core/client.py`, `util.py`).  Python integers are modelled as `Nat` (all
values involved are non-negative), dictionaries of keyword arguments as
structures of `Option` fields (`none` = key absent), fallible constructors as
`Except`/`Option`, and the stateful shard loop as an explicit recursion over a
script of connection outcomes.  Where the code of this repository lives
outside `src/` (the state layer, the event manager, the gateway, the upload
encoder), the definition is modelled from the specification and says so in
its doc comment.
-/

namespace Curious

/-! ## Base abstractions (src/curious/dataclasses/bases.py) -/

/-- The service epoch constant from bases.py: `DISCORD_EPOCH = 1420070400000`,
milliseconds since the Unix epoch. -/
def DISCORD_EPOCH : Nat := 1420070400000

/-- The argument accepted by `IDObject.__init__`: either an integer snowflake
or a string-encoded integer snowflake. -/
inductive PyIdArg where
  | int (n : Nat)
  | str (s : String)
deriving DecidableEq

/-- Value of one decimal digit character, as Python `int` parsing sees it;
`none` for a non-digit character. -/
def digitVal (c : Char) : Option Nat :=
  if c.isDigit then some (c.toNat - 48) else none

/-- Accumulating decimal parse over a list of characters; fails on the first
non-digit character. -/
def parseDecimalAux : List Char → Nat → Option Nat
  | [], acc => some acc
  | c :: cs, acc =>
    match digitVal c with
    | some d => parseDecimalAux cs (acc * 10 + d)
    | none => none

/-- Python `int(s)` on a plain non-negative decimal string (the only shape the
snowflake claims exercise): parses the digits, failing (`ValueError`) on an
empty string or any non-digit character. -/
def pyInt (s : String) : Option Nat :=
  if s.data = [] then none else parseDecimalAux s.data 0

/-- A snowflake identity object: `IDObject` from bases.py holds only the
integer `id` slot. -/
structure IDObject where
  id : Nat
deriving DecidableEq

/-- `IDObject.__init__`: a string argument is parsed with `int` (failing with
`ValueError` on non-numeric input), an integer argument is stored as-is. -/
def IDObject.init : PyIdArg → Option IDObject
  | .int n => some ⟨n⟩
  | .str s => (pyInt s).map (fun n => ⟨n⟩)

/-- `IDObject.__eq__`: `other.id == self.id`. -/
def IDObject.eq (self other : IDObject) : Bool :=
  other.id == self.id

/-- An opaque reference to the owning client, as stored in `Dataclass._bot`.
Only presence or absence matters to the claims. -/
inductive ClientRef where
  | mk
deriving DecidableEq

/-- The slots of a `Dataclass` instance after `Dataclass.__init__`: the
snowflake from `IDObject` plus the `_bot` client reference exactly as passed
(the constructor performs no validation of the client argument). -/
structure Dataclass extends IDObject where
  bot : Option ClientRef
deriving DecidableEq

/-- `Dataclass.__init__(self, id, client)` (bases.py lines 58-61): calls
`super().__init__(id)` and stores `self._bot = client`, with no check that a
client was supplied. -/
def Dataclass.init (id : Nat) (client : Option ClientRef) : Dataclass :=
  { id := id, bot := client }

/-! ## Emoji (src/curious/dataclasses/emoji.py) -/

/-- Errors a Python constructor can raise; `typeError` models `int(None)`
when the `id` key is absent, `invalidInput` models the `ValueError` the spec
calls InvalidInput. -/
inductive PyError where
  | typeError
  | invalidInput
deriving DecidableEq

/-- The keyword arguments `Emoji.__init__` reads via `kwargs.get`; `none`
models an absent key.  The `id` value has already been taken through `int`
(string payloads parse to the same integer, per `pyInt`). -/
structure EmojiKwargs where
  id : Option Nat := none
  client : Option ClientRef := none
  name : Option String := none
  roles : Option (List Nat) := none
  require_colons : Option Bool := none
  managed : Option Bool := none
  animated : Option Bool := none

/-- The slots of an `Emoji` instance after `Emoji.__init__`. -/
structure Emoji extends Dataclass where
  name : Option String
  role_ids : List Nat
  require_colons : Bool
  managed : Bool
  guild_id : Option Nat
  animated : Bool
deriving DecidableEq

/-- `Emoji.__init__` (emoji.py lines 19-38): calls
`super().__init__(int(kwargs.get("id")), kwargs.get("client"))` — which fails
with `TypeError` only when the `id` key is absent, while an absent `client`
key is passed through unchecked as `None` — then fills the remaining slots
from `kwargs.get` with the source's defaults (`guild_id` is always `None`
after construction). -/
def Emoji.init (k : EmojiKwargs) : Except PyError Emoji :=
  match k.id with
  | none => .error .typeError
  | some i =>
      .ok { toDataclass := Dataclass.init i k.client
            name := k.name
            role_ids := k.roles.getD []
            require_colons := (k.require_colons).getD false
            managed := k.managed.getD false
            guild_id := none
            animated := k.animated.getD false }

/-- The right operand shapes `Emoji.__eq__` distinguishes: another emoji, or
a plain string. -/
inductive EmojiEqOperand where
  | emoji (e : Emoji)
  | str (s : String)

/-- `Emoji.__eq__` (emoji.py lines 40-44): a string operand compares `False`
unconditionally; any other emoji compares by `self.id == other.id`. -/
def Emoji.eq (self : Emoji) : EmojiEqOperand → Bool
  | .str _ => false
  | .emoji other => self.id == other.id

/-! ## Event firing gate and dispatch handling (src/curious/core/client.py) -/

/-- Handlers are identified by an opaque number; a registry maps an event name
to the ordered handlers registered for it. -/
abbrev HandlerId := Nat

/-- A name-keyed handler registry, the view of `EventManager`'s subscription
table a firing consults. -/
abbrev Registry := String → List HandlerId

/-- Modelled from the spec: the state layer's per-shard readiness flags
(`curious/core/state.py` is not under `src/`); `is_ready(shard_id)` reports
whether the shard has completed its initial session-establishment dispatch. -/
structure StateReady where
  ready : Nat → Bool

/-- Modelled from the spec: `EventManager.fire_event`
(`curious/core/event.py` is not under `src/`) invokes every handler
registered for the event name — with no readiness gate of its own; firing an
event with no registered handlers is a no-op.  The model returns the list of
handlers invoked. -/
def EventManager.fire_event (reg : Registry) (event_name : String) : List HandlerId :=
  reg event_name

/-- `Client.IGNORE_READY` (client.py lines 84-90): the allow-list of events
that fire even before the shard is ready. -/
def IGNORE_READY : List String :=
  ["connect", "guild_streamed", "guild_chunk", "guild_available", "guild_sync"]

/-- Python `s.startswith(p)`, computed on the character lists. -/
def pyStartsWith (s p : String) : Bool :=
  p.data.isPrefixOf s.data

/-- `Client.fire_event` (client.py lines 268-279): when the originating
shard is not marked ready, an event whose name is neither in `IGNORE_READY`
nor starts with `gateway_` returns without firing; otherwise the call is
passed to `EventManager.fire_event`.  Returns the handlers invoked. -/
def Client.fire_event (st : StateReady) (reg : Registry) (shard_id : Nat)
    (event_name : String) : List HandlerId :=
  if st.ready shard_id = false ∧ IGNORE_READY.contains event_name = false ∧
      pyStartsWith event_name "gateway_" = false then
    []
  else
    EventManager.fire_event reg event_name

/-- The three shapes a state-layer translation routine's (awaited) result can
take in `Client.handle_dispatches`: a non-tuple single event name, a tuple of
name plus extra arguments, or an async generator yielding such tuples.
Event arguments are abstracted to opaque numbers. -/
inductive TransResult where
  | plain (event_name : String)
  | tup (event_name : String) (args : List Nat)
  | agen (events : List (String × List Nat))

/-- The event-firing tail of `Client.handle_dispatches` (client.py lines
544-558): every derived event — one per generator item, or exactly one for a
plain or tuple result — is fired through `self.events.fire_event` directly,
not through `Client.fire_event`, so the readiness gate is never consulted on
this path.  Returns the handlers invoked. -/
def Client.handle_dispatches_fire (reg : Registry) : TransResult → List HandlerId
  | .agen events => (events.map (fun e => EventManager.fire_event reg e.1)).flatten
  | .plain event_name => EventManager.fire_event reg event_name
  | .tup event_name _ => EventManager.fire_event reg event_name

/-! ## The uncaught-failure path of handle_dispatches (client.py 560-566)

The `except Exception` block runs
`logger.exception(f"Error decoding event {event} with data {dispatch}!")`,
then closes the gateway with code 1006 and re-raises.  The f-string reads the
bare name `event`; name resolution for it inside `handle_dispatches` searches
the local scope, the module globals of `client.py`, and the Python builtins. -/

/-- The names bound in the local scope of `Client.handle_dispatches`: its
parameters and every name the body assigns. -/
def handleDispatchesLocals : List String :=
  ["self", "ctx", "name", "dispatch", "handle_name", "handler", "result", "gen", "i"]

/-- The names bound at module scope in `client.py`: its imports (note line 21
imports `event` under the alias `ev_dec`, so the bare name `event` is NOT
bound) and its module-level definitions. -/
def clientModuleGlobals : List String :=
  ["collections", "enum", "functools", "inspect", "logging", "typing",
   "MappingProxyType", "multio", "WebsocketClosed", "WebsocketUnusable",
   "EventContext", "EventManager", "ev_dec", "ChunkGuilds", "Gateway",
   "ReconnectWebsocket", "HTTPClient", "dt_channel", "dt_guild", "dt_member",
   "AppInfo", "Invite", "Game", "Status", "BotUser", "User", "Webhook",
   "Widget", "base64ify", "logger", "BotType", "Client"]

/-- Whether a bare name resolves inside `Client.handle_dispatches`.  Python
builtins bind no name called `event` either, so locals plus module globals
decide the two names the f-string reads. -/
def resolvesInHandleDispatches (n : String) : Bool :=
  handleDispatchesLocals.contains n || clientModuleGlobals.contains n

/-- The failure reaching the `except` clauses of `handle_dispatches`: either
the member-chunk-request signal (`ChunkGuilds`) or any other exception. -/
inductive DispatchFailure where
  | chunkGuilds
  | other

/-- What the `except` clauses of `handle_dispatches` do when a failure
reaches them. -/
inductive DispatchFailureOutcome where
  /-- `ChunkGuilds` was caught and answered with `ctx.gateway._get_chunks()`. -/
  | requestedChunks
  /-- The failure was logged, the gateway closed with the given code and
  reason, and the original failure re-raised. -/
  | loggedClosedReraised (code : Nat) (reason : String)
  /-- Evaluating the log f-string raised `NameError` for the given unbound
  name: nothing was logged, the gateway was not closed, and the `NameError`
  (not the original failure) propagates. -/
  | raisedNameError (unbound : String)
deriving DecidableEq

/-- The `except` clauses of `Client.handle_dispatches` (client.py lines
560-566): `ChunkGuilds` triggers a chunk request; any other exception first
evaluates the log f-string, which reads the names `event` then `dispatch` —
an unresolvable name raises `NameError` there, skipping both the
`ctx.gateway.close(code=1006, reason="Internal client error")` call and the
re-raise. -/
def Client.handle_dispatches_on_error : DispatchFailure → DispatchFailureOutcome
  | .chunkGuilds => .requestedChunks
  | .other =>
    if resolvesInHandleDispatches "event" = false then
      .raisedNameError "event"
    else if resolvesInHandleDispatches "dispatch" = false then
      .raisedNameError "dispatch"
    else
      .loggedClosedReraised 1006 "Internal client error"

/-! ## Profile editing (src/curious/core/client.py, edit_profile) -/

/-- The backtick character, written by code point to keep the source plain. -/
def backquote : Char := Char.ofNat 96

/-- Python `'``' * 3 in username` — whether three consecutive backticks occur
anywhere in the character list. -/
def hasTripleBackquote : List Char → Bool
  | c1 :: c2 :: c3 :: rest =>
      (c1 == backquote && c2 == backquote && c3 == backquote) ||
        hasTripleBackquote (c2 :: c3 :: rest)
  | _ => false

/-- The test `any(x in username for x in ('@', ':', '``' + '`'))` from
client.py line 326. -/
def usernameHasBannedChars (u : String) : Bool :=
  u.data.contains '@' || u.data.contains ':' || hasTripleBackquote u.data

/-- Python truthiness of the optional `username` argument: `None` and the
empty string are falsy, so only a non-empty supplied username enters the
validation block. -/
def usernameTruthy : Option String → Bool
  | none => false
  | some s => !(s == "")

/-- Python truthiness of the optional `avatar` bytes argument. -/
def avatarTruthy : Option (List Nat) → Bool
  | none => false
  | some bs => !bs.isEmpty

/-- Modelled from the spec: `base64ify` is imported from `curious.util` but
not present in the `util.py` under `src/`; per the spec it encodes a raw byte
buffer into a data-URI-style base64 text value.  Its exact output is
irrelevant to every claim, so the bytes are rendered opaquely. -/
def base64ify (bs : List Nat) : String :=
  "data:;base64," ++ toString bs

/-- Which `ValueError` (the spec's InvalidInput) a profile edit raised. -/
inductive ProfileEditError where
  | passwordRequired
  | bannedChars
  | bannedUsername
  | badLength
deriving DecidableEq

/-- The single HTTP request `edit_profile` ends with:
`self.http.edit_user(username, avatar, password)`.  The avatar slot holds the
raw bytes when the argument was falsy and the base64 text after encoding. -/
structure EditUserCall where
  username : Option String
  avatar : Option (List Nat ⊕ String)
  password : Option String
deriving DecidableEq

/-- `Client.edit_profile` (client.py lines 308-338) as a function from the
logged-in account's bot flag and the keyword arguments to either the
`ValueError` raised before any request, or the list of HTTP requests issued
(always exactly one on success).  The source's checks in order: a user
account with no password raises; then, only when `username` is truthy, the
banned-character, reserved-name and length checks raise in turn; a truthy
avatar is base64-encoded; finally `http.edit_user` is called once. -/
def Client.edit_profile (userIsBot : Bool) (username : Option String)
    (avatar : Option (List Nat)) (password : Option String) :
    Except ProfileEditError (List EditUserCall) :=
  if userIsBot = false ∧ password = none then
    .error .passwordRequired
  else if usernameTruthy username ∧ usernameHasBannedChars (username.getD "") then
    .error .bannedChars
  else if usernameTruthy username ∧
      ((username.getD "") = "discordtag" ∨ (username.getD "") = "everyone" ∨
        (username.getD "") = "here") then
    .error .bannedUsername
  else if usernameTruthy username ∧
      ¬(2 ≤ (username.getD "").length ∧ (username.getD "").length ≤ 32) then
    .error .badLength
  else
    let avatarArg : Option (List Nat ⊕ String) :=
      if avatarTruthy avatar then avatar.map (fun bs => .inr (base64ify bs))
      else avatar.map .inl
    .ok [{ username := username, avatar := avatarArg, password := password }]

/-! ## Guild-member pagination (src/curious/core/client.py, download_guild_members)

A raw member datum is represented by its user id — the only field the loop
reads (`member_data[-1]["user"]["id"]`).  The HTTP layer is abstracted as a
function from the `after` cursor to the page it returns; the model records
every page request issued.  The source's `while True` loop can diverge on an
adversarial member source, so the recursion carries fuel and returns `none`
when the fuel runs out. -/

/-- One call to `http.get_guild_members(guild_id, limit, after)`. -/
structure PageRequest where
  limit : Nat
  after : Option Nat
deriving DecidableEq

/-- The `get_all is True` loop of `download_guild_members` (client.py lines
449-463): starting from `last_id = 0`, request a page; an empty page breaks;
otherwise the page is accumulated and a page shorter than `limit` breaks;
otherwise the cursor becomes the last accumulated member's id and the loop
repeats.  Returns the accumulated member data and the requests issued. -/
def downloadAllMembers (fetch : Option Nat → List Nat) (limit : Nat) :
    Nat → Nat → List Nat → List PageRequest → Option (List Nat × List PageRequest)
  | 0, _, _, _ => none
  | fuel + 1, last_id, acc, reqs =>
    let next_data := fetch (some last_id)
    let reqs2 := reqs ++ [⟨limit, some last_id⟩]
    if next_data = [] then
      some (acc, reqs2)
    else
      let acc2 := acc ++ next_data
      if next_data.length < limit then
        some (acc2, reqs2)
      else
        downloadAllMembers fetch limit fuel (acc2.getLast!) acc2 reqs2

/-- `Client.download_guild_members` (client.py lines 432-476): in `get_all`
mode the loop above runs with initial cursor `0` — the `after` argument does
not occur in that branch — otherwise a single page is fetched with the given
`after` cursor.  Returns the member data and the page requests issued. -/
def Client.download_guild_members (fetch : Option Nat → List Nat)
    (after : Option Nat) (limit : Nat) (get_all : Bool) (fuel : Nat) :
    Option (List Nat × List PageRequest) :=
  if get_all = true then
    downloadAllMembers fetch limit fuel 0 [] []
  else
    some (fetch after, [⟨limit, after⟩])

/-! ## Per-shard lifecycle (src/curious/core/client.py, handle_shard) -/

/-- What the `except WebsocketClosed` / `except ReconnectWebsocket` handlers
inside `handle_shard` decide to do. -/
inductive CloseAction where
  /-- `return` — the shard loop stops with no reconnect attempt. -/
  | stopShard
  /-- `self.state._reset(gw.shard_id)` followed by `gw.reconnect(resume=False)`. -/
  | resetAndFreshReconnect
  /-- `gw.reconnect(resume=True)`. -/
  | resumeReconnect
  /-- `raise` — the closed-connection error propagates as fatal from this
  branch. -/
  | reraise
deriving DecidableEq

/-- The `except WebsocketClosed` decision ladder of `Client.handle_shard`
(client.py lines 603-623): the reason sentinel is checked first; then
`e.code in [1000, 4007] or gw.session_id is None` selects a state reset and a
fresh-session reconnect; then `e.code not in (4004, 4011)` selects a resume;
otherwise the error is re-raised. -/
def Client.handle_websocket_closed (code : Nat) (reason : String)
    (hasSessionId : Bool) : CloseAction :=
  if reason = "Client closed connection" then
    .stopShard
  else if code = 1000 ∨ code = 4007 ∨ hasSessionId = false then
    .resetAndFreshReconnect
  else if ¬(code = 4004 ∨ code = 4011) then
    .resumeReconnect
  else
    .reraise

/-- The `except ReconnectWebsocket` handler of `Client.handle_shard`
(client.py lines 624-626): a server-issued reconnect request always attempts
a resume. -/
def Client.handle_reconnect_websocket : CloseAction :=
  .resumeReconnect

/-- One iteration of `handle_shard`'s `while True` loop, abstracted to how it
ends (client.py lines 576-630). -/
inductive ShardAttempt where
  /-- `Gateway.from_token` raised: a connection-establishment failure
  (`total_tries += 1; continue`). -/
  | connectFail
  /-- The connection succeeded (`total_tries = 0`) but consumption or a
  reconnect attempt later raised `WebsocketClosed`/`WebsocketUnusable` into
  the outer handler (`total_tries += 1; continue`). -/
  | okThenRetry
  /-- The connection succeeded and a reconnect inside the inner handlers
  completed, so the loop continues with `total_tries` still `0`. -/
  | okThenContinue
  /-- The connection succeeded and the close reason was the intentional
  sentinel: `return`. -/
  | okThenReturn
  /-- The connection succeeded and the consume phase re-raised fatally
  (close code 4004 or 4011). -/
  | okThenFatal
deriving DecidableEq

/-- How a finite script of loop iterations leaves `handle_shard`. -/
inductive ShardResult where
  /-- `total_tries == 10` at the top of the loop: `RuntimeError("Gave up
  reconnecting shard id ...")` with no further connection attempt. -/
  | gaveUp
  /-- The intentional-shutdown `return`. -/
  | returned
  /-- A fatal re-raise propagated. -/
  | fatal
  /-- The script ran out while the loop would continue, carrying the current
  `total_tries` counter. -/
  | ranOut (total_tries : Nat)
deriving DecidableEq

/-- `Client.handle_shard`'s retry loop (client.py lines 576-630) over a
script of iteration outcomes, returning how the loop ends and how many
connection attempts (`Gateway.from_token` calls) were made.  The guard
`total_tries == 10` is tested before any attempt; a failed attempt increments
the counter; a successful attempt resets it to `0`, after which an outer
`WebsocketClosed`/`WebsocketUnusable` increments it to `1`. -/
def Client.handle_shard_loop (total_tries : Nat) :
    List ShardAttempt → ShardResult × Nat
  | [] => if total_tries = 10 then (.gaveUp, 0) else (.ranOut total_tries, 0)
  | a :: rest =>
    if total_tries = 10 then
      (.gaveUp, 0)
    else
      match a with
      | .connectFail =>
          let p := Client.handle_shard_loop (total_tries + 1) rest
          (p.1, p.2 + 1)
      | .okThenRetry =>
          let p := Client.handle_shard_loop 1 rest
          (p.1, p.2 + 1)
      | .okThenContinue =>
          let p := Client.handle_shard_loop 0 rest
          (p.1, p.2 + 1)
      | .okThenReturn => (.returned, 1)
      | .okThenFatal => (.fatal, 1)

/-! ## Snowflake timestamps (bases.py, IDObject.timestamp)

`IDObject.timestamp` evaluates
`datetime.datetime.utcfromtimestamp(((int(self.id) >> 22) + DISCORD_EPOCH) / 1000)`.
CPython performs the division and conversion through a float; the embedding
computes the same expressions at exact rational precision. -/

/-- The result of `datetime.datetime.utcfromtimestamp`: a naive UTC calendar
date and time. -/
structure PyDateTime where
  year : Nat
  month : Nat
  day : Nat
  hour : Nat
  minute : Nat
  second : Nat
  microsecond : Nat
deriving DecidableEq

/-- Gregorian date for a day count since 1970-01-01 (non-negative: every
snowflake timestamp is after the epoch).  The standard era-based civil
calendar algorithm. -/
def civilFromDays (z0 : Nat) : Nat × Nat × Nat :=
  let z := z0 + 719468
  let era := z / 146097
  let doe := z % 146097
  let yoe := (doe - doe / 1460 + doe / 36524 - doe / 146096) / 365
  let y := yoe + era * 400
  let doy := doe - (365 * yoe + yoe / 4 - yoe / 100)
  let mp := (5 * doy + 2) / 153
  let d := doy - (153 * mp + 2) / 5 + 1
  let m := if mp < 10 then mp + 3 else mp - 9
  (if m ≤ 2 then y + 1 else y, m, d)

/-- UTC calendar date-time from whole seconds since the Unix epoch plus a
microsecond part. -/
def datetimeFromEpochSeconds (secs us : Nat) : PyDateTime :=
  let days := secs / 86400
  let sod := secs % 86400
  let ymd := civilFromDays days
  { year := ymd.1, month := ymd.2.1, day := ymd.2.2,
    hour := sod / 3600, minute := sod % 3600 / 60, second := sod % 60,
    microsecond := us }

/-- `datetime.datetime.utcfromtimestamp` on a non-negative timestamp,
modelled at exact precision: CPython splits the float into whole seconds and
a fraction, rounds the fraction to microseconds (carrying into the seconds
when the rounding overflows), and converts to a UTC calendar date-time. -/
def utcfromtimestamp (t : ℚ) : PyDateTime :=
  let secs : ℤ := ⌊t⌋
  let us : ℤ := round ((t - (secs : ℚ)) * 1000000)
  let secs2 : ℤ := if 1000000 ≤ us then secs + 1 else secs
  let us2 : ℤ := if 1000000 ≤ us then us - 1000000 else us
  datetimeFromEpochSeconds secs2.toNat us2.toNat

/-- `IDObject.timestamp` (bases.py lines 35-40). -/
def IDObject.timestamp (o : IDObject) : PyDateTime :=
  utcfromtimestamp ((((o.id >>> 22) + DISCORD_EPOCH : Nat) : ℚ) / 1000)

/-- The specification's `utc_datetime_from_unix_millis`, following its words:
the UTC calendar time at the given number of milliseconds since the Unix
epoch — whole seconds by division, the millisecond remainder as
microseconds. -/
def utc_datetime_from_unix_millis (ms : Nat) : PyDateTime :=
  datetimeFromEpochSeconds (ms / 1000) (ms % 1000 * 1000)

/-! ## Decimal string form of a snowflake -/

/-- Big-endian decimal digit characters of `n` in front of `acc`. -/
def decimalDigitsAux (n : Nat) (acc : List Char) : List Char :=
  if h : n < 10 then Char.ofNat (48 + n) :: acc
  else decimalDigitsAux (n / 10) (Char.ofNat (48 + n % 10) :: acc)
termination_by n
decreasing_by exact Nat.div_lt_self (by omega) (by omega)

/-- The decimal string form of a natural number. -/
def decimalString (n : Nat) : String :=
  ⟨decimalDigitsAux n []⟩

/-- The value the digits of `n` contribute after an already-parsed value `v`:
the specification of what appending `n`'s decimal digits does to an
accumulating parser. -/
def decimalShift (n v : Nat) : Nat :=
  if h : n < 10 then v * 10 + n
  else decimalShift (n / 10) v * 10 + n % 10
termination_by n
decreasing_by exact Nat.div_lt_self (by omega) (by omega)

/-! ## Fixtures: fake member sources for the pagination scenarios -/

/-- Fake member source with pages of sizes 1000, 1000 and 400 for page size
1000: members are numbered 1 to 2400, keyed by the cursor the loop passes
(the last member id of the previous page). -/
def fetchPages2400 : Option Nat → List Nat
  | some 0 => List.range' 1 1000
  | some 1000 => List.range' 1001 1000
  | some 2000 => List.range' 2001 400
  | _ => []

/-- Fake member source with pages of sizes 1000 and 1000 followed by an
empty page: members are numbered 1 to 2000. -/
def fetchPages2000 : Option Nat → List Nat
  | some 0 => List.range' 1 1000
  | some 1000 => List.range' 1001 1000
  | _ => []

/-! ## Supporting lemmas -/

theorem digitVal_ofNat (m : Nat) (h : m < 10) :
    digitVal (Char.ofNat (48 + m)) = some m := by
  interval_cases m <;> decide

theorem parse_decimalDigitsAux (n : Nat) : ∀ (v : Nat) (acc : List Char),
    parseDecimalAux (decimalDigitsAux n acc) v = parseDecimalAux acc (decimalShift n v) := by
  induction n using Nat.strong_induction_on with
  | _ n ih =>
    intro v acc
    by_cases h : n < 10
    · rw [decimalDigitsAux, decimalShift]
      simp only [h, dif_pos]
      simp [parseDecimalAux, digitVal_ofNat n h]
    · rw [decimalDigitsAux, decimalShift]
      simp only [h, dif_neg, not_false_iff]
      rw [ih (n / 10) (Nat.div_lt_self (by omega) (by omega))]
      simp [parseDecimalAux, digitVal_ofNat (n % 10) (Nat.mod_lt n (by omega))]

theorem decimalShift_zero (n : Nat) : decimalShift n 0 = n := by
  induction n using Nat.strong_induction_on with
  | _ n ih =>
    by_cases h : n < 10
    · rw [decimalShift]; simp [h]
    · rw [decimalShift]
      simp only [h, dif_neg, not_false_iff]
      rw [ih (n / 10) (Nat.div_lt_self (by omega) (by omega))]
      omega

theorem decimalDigitsAux_ne_nil (n : Nat) (acc : List Char) :
    decimalDigitsAux n acc ≠ [] := by
  induction n using Nat.strong_induction_on generalizing acc with
  | _ n ih =>
    by_cases h : n < 10
    · rw [decimalDigitsAux]; simp [h]
    · rw [decimalDigitsAux]
      simp only [h, dif_neg, not_false_iff]
      exact ih (n / 10) (Nat.div_lt_self (by omega) (by omega)) _

theorem pyInt_decimalString (n : Nat) : pyInt (decimalString n) = some n := by
  unfold pyInt decimalString
  simp only [String.data]
  rw [if_neg (decimalDigitsAux_ne_nil n [])]
  rw [parse_decimalDigitsAux n 0 []]
  simp [parseDecimalAux, decimalShift_zero]

theorem utcfromtimestamp_div_1000 (ms : Nat) :
    utcfromtimestamp ((ms : ℚ) / 1000) =
      datetimeFromEpochSeconds (ms / 1000) (ms % 1000 * 1000) := by
  have hfloor : ⌊(ms : ℚ) / 1000⌋ = ((ms / 1000 : ℕ) : ℤ) := by
    have h := Rat.floor_natCast_div_natCast ms 1000
    simpa using h
  have hsplit : (ms : ℚ) = 1000 * ((ms / 1000 : ℕ) : ℚ) + ((ms % 1000 : ℕ) : ℚ) := by
    exact_mod_cast congrArg (fun k : ℕ => (k : ℚ)) (Nat.div_add_mod ms 1000).symm
  have hround : round (((ms : ℚ) / 1000 - ((⌊(ms : ℚ) / 1000⌋ : ℤ) : ℚ)) * 1000000) =
      ((ms % 1000 * 1000 : ℕ) : ℤ) := by
    rw [hfloor]
    rw [show ((ms : ℚ) / 1000 - (((ms / 1000 : ℕ) : ℤ) : ℚ)) * 1000000 =
        ((ms % 1000 * 1000 : ℕ) : ℚ) from by
      rw [Int.cast_natCast, hsplit]
      push_cast
      ring]
    exact round_natCast (ms % 1000 * 1000)
  have hsmall : ¬(1000000 ≤ ((ms % 1000 * 1000 : ℕ) : ℤ)) := by
    have : ms % 1000 < 1000 := Nat.mod_lt ms (by omega)
    push_cast
    omega
  simp only [utcfromtimestamp]
  rw [hround, hfloor]
  rw [if_neg hsmall, if_neg hsmall]
  rw [Int.toNat_natCast, Int.toNat_natCast]

theorem handle_shard_loop_giveup (script : List ShardAttempt) :
    Client.handle_shard_loop 10 script = (.gaveUp, 0) := by
  cases script <;> simp [Client.handle_shard_loop]

theorem handle_shard_loop_fail_run (k : Nat) (hk : k ≤ 10) (rest : List ShardAttempt) :
    Client.handle_shard_loop (10 - k) (List.replicate k .connectFail ++ rest) =
      (.gaveUp, k) := by
  induction k with
  | zero => simpa using handle_shard_loop_giveup rest
  | succ k ih =>
    have h1 : ¬(10 - (k + 1) = 10) := by omega
    rw [List.replicate_succ, List.cons_append]
    rw [Client.handle_shard_loop]
    simp only [h1, if_false]
    have h2 : 10 - (k + 1) + 1 = 10 - k := by omega
    rw [h2, ih (by omega)]

theorem downloadAllMembers_stop (fetch : Option Nat → List Nat) (limit : Nat) :
    ∀ (fuel last_id : Nat) (acc : List Nat) (reqs : List PageRequest)
      (ms : List Nat) (rs : List PageRequest),
      downloadAllMembers fetch limit fuel last_id acc reqs = some (ms, rs) →
      ∃ r, rs.getLast? = some r ∧
        (fetch r.after = [] ∨ (fetch r.after).length < limit) := by
  intro fuel
  induction fuel with
  | zero => intro last_id acc reqs ms rs h; simp [downloadAllMembers] at h
  | succ fuel ih =>
    intro last_id acc reqs ms rs h
    rw [downloadAllMembers] at h
    by_cases h1 : fetch (some last_id) = []
    · rw [if_pos h1] at h
      obtain ⟨hms, hrs⟩ := Prod.mk.injEq .. ▸ Option.some.injEq .. ▸ h
      refine ⟨⟨limit, some last_id⟩, ?_, .inl h1⟩
      rw [← hrs]; simp
    · rw [if_neg h1] at h
      by_cases h2 : (fetch (some last_id)).length < limit
      · rw [if_pos h2] at h
        obtain ⟨hms, hrs⟩ := Prod.mk.injEq .. ▸ Option.some.injEq .. ▸ h
        refine ⟨⟨limit, some last_id⟩, ?_, .inr h2⟩
        rw [← hrs]; simp
      · rw [if_neg h2] at h
        exact ih _ _ _ _ _ h

theorem downloadAllMembers_step (fetch : Option Nat → List Nat)
    (limit fuel c c2 : Nat) (acc : List Nat) (reqs : List PageRequest)
    (h1 : fetch (some c) ≠ [])
    (h2 : ¬((fetch (some c)).length < limit))
    (h3 : (acc ++ fetch (some c)).getLast? = some c2) :
    downloadAllMembers fetch limit (fuel + 1) c acc reqs =
      downloadAllMembers fetch limit fuel c2 (acc ++ fetch (some c))
        (reqs ++ [⟨limit, some c⟩]) := by
  rw [downloadAllMembers, if_neg h1, if_neg h2, List.getLast!_of_getLast? h3]

theorem downloadAllMembers_stop_short (fetch : Option Nat → List Nat)
    (limit fuel c : Nat) (acc : List Nat) (reqs : List PageRequest)
    (h1 : fetch (some c) ≠ [])
    (h2 : (fetch (some c)).length < limit) :
    downloadAllMembers fetch limit (fuel + 1) c acc reqs =
      some (acc ++ fetch (some c), reqs ++ [⟨limit, some c⟩]) := by
  rw [downloadAllMembers, if_neg h1, if_pos h2]

theorem downloadAllMembers_stop_empty (fetch : Option Nat → List Nat)
    (limit fuel c : Nat) (acc : List Nat) (reqs : List PageRequest)
    (h1 : fetch (some c) = []) :
    downloadAllMembers fetch limit (fuel + 1) c acc reqs =
      some (acc, reqs ++ [⟨limit, some c⟩]) := by
  rw [downloadAllMembers, if_pos h1]

theorem pagination_scenario_2400 :
    (Client.download_guild_members fetchPages2400 none 1000 true 4).map
        (fun p => (p.1.length, p.2)) =
      some (2400, [⟨1000, some 0⟩, ⟨1000, some 1000⟩, ⟨1000, some 2000⟩]) := by
  have e0 : fetchPages2400 (some 0) = List.range' 1 1000 := rfl
  have e1 : fetchPages2400 (some 1000) = List.range' 1001 1000 := rfl
  have e2 : fetchPages2400 (some 2000) = List.range' 2001 400 := rfl
  have s1 : downloadAllMembers fetchPages2400 1000 4 0 [] [] =
      downloadAllMembers fetchPages2400 1000 3 1000 (List.range' 1 1000)
        [⟨1000, some 0⟩] := by
    have h := downloadAllMembers_step fetchPages2400 1000 3 0 1000 [] []
      (by rw [e0]; simp) (by rw [e0]; simp)
      (by rw [e0]; simp [List.getLast?_range'])
    rw [e0] at h
    simpa using h
  have s2 : downloadAllMembers fetchPages2400 1000 3 1000 (List.range' 1 1000)
        [⟨1000, some 0⟩] =
      downloadAllMembers fetchPages2400 1000 2 2000 (List.range' 1 2000)
        [⟨1000, some 0⟩, ⟨1000, some 1000⟩] := by
    have h := downloadAllMembers_step fetchPages2400 1000 2 1000 2000
      (List.range' 1 1000) [⟨1000, some 0⟩]
      (by rw [e1]; simp) (by rw [e1]; simp)
      (by rw [e1, List.range'_append_1]; simp [List.getLast?_range'])
    rw [e1, List.range'_append_1] at h
    simpa using h
  have s3 : downloadAllMembers fetchPages2400 1000 2 2000 (List.range' 1 2000)
        [⟨1000, some 0⟩, ⟨1000, some 1000⟩] =
      some (List.range' 1 2400,
        [⟨1000, some 0⟩, ⟨1000, some 1000⟩, ⟨1000, some 2000⟩]) := by
    have h := downloadAllMembers_stop_short fetchPages2400 1000 1 2000
      (List.range' 1 2000) [⟨1000, some 0⟩, ⟨1000, some 1000⟩]
      (by rw [e2]; simp) (by rw [e2]; simp)
    rw [e2, List.range'_append_1] at h
    simpa using h
  rw [Client.download_guild_members, if_pos rfl, s1, s2, s3]
  simp

theorem pagination_scenario_2000 :
    (Client.download_guild_members fetchPages2000 none 1000 true 4).map
        (fun p => (p.1.length, p.2)) =
      some (2000, [⟨1000, some 0⟩, ⟨1000, some 1000⟩, ⟨1000, some 2000⟩]) := by
  have e0 : fetchPages2000 (some 0) = List.range' 1 1000 := rfl
  have e1 : fetchPages2000 (some 1000) = List.range' 1001 1000 := rfl
  have e2 : fetchPages2000 (some 2000) = [] := rfl
  have s1 : downloadAllMembers fetchPages2000 1000 4 0 [] [] =
      downloadAllMembers fetchPages2000 1000 3 1000 (List.range' 1 1000)
        [⟨1000, some 0⟩] := by
    have h := downloadAllMembers_step fetchPages2000 1000 3 0 1000 [] []
      (by rw [e0]; simp) (by rw [e0]; simp)
      (by rw [e0]; simp [List.getLast?_range'])
    rw [e0] at h
    simpa using h
  have s2 : downloadAllMembers fetchPages2000 1000 3 1000 (List.range' 1 1000)
        [⟨1000, some 0⟩] =
      downloadAllMembers fetchPages2000 1000 2 2000 (List.range' 1 2000)
        [⟨1000, some 0⟩, ⟨1000, some 1000⟩] := by
    have h := downloadAllMembers_step fetchPages2000 1000 2 1000 2000
      (List.range' 1 1000) [⟨1000, some 0⟩]
      (by rw [e1]; simp) (by rw [e1]; simp)
      (by rw [e1, List.range'_append_1]; simp [List.getLast?_range'])
    rw [e1, List.range'_append_1] at h
    simpa using h
  have s3 : downloadAllMembers fetchPages2000 1000 2 2000 (List.range' 1 2000)
        [⟨1000, some 0⟩, ⟨1000, some 1000⟩] =
      some (List.range' 1 2000,
        [⟨1000, some 0⟩, ⟨1000, some 1000⟩, ⟨1000, some 2000⟩]) := by
    have h := downloadAllMembers_stop_empty fetchPages2000 1000 1 2000
      (List.range' 1 2000) [⟨1000, some 0⟩, ⟨1000, some 1000⟩] e2
    simpa using h
  rw [Client.download_guild_members, if_pos rfl, s1, s2, s3]
  simp

theorem downloadAllMembers_reqs_structure (fetch : Option Nat → List Nat) (limit : Nat) :
    ∀ (fuel last_id : Nat) (acc : List Nat) (reqs : List PageRequest)
      (ms : List Nat) (rs : List PageRequest),
      downloadAllMembers fetch limit fuel last_id acc reqs = some (ms, rs) →
      ∃ t, rs = reqs ++ t ∧ t.head? = some ⟨limit, some last_id⟩ := by
  intro fuel
  induction fuel with
  | zero => intro last_id acc reqs ms rs h; simp [downloadAllMembers] at h
  | succ fuel ih =>
    intro last_id acc reqs ms rs h
    rw [downloadAllMembers] at h
    by_cases h1 : fetch (some last_id) = []
    · rw [if_pos h1] at h
      obtain ⟨hms, hrs⟩ := Prod.mk.injEq .. ▸ Option.some.injEq .. ▸ h
      exact ⟨[⟨limit, some last_id⟩], hrs.symm, rfl⟩
    · rw [if_neg h1] at h
      by_cases h2 : (fetch (some last_id)).length < limit
      · rw [if_pos h2] at h
        obtain ⟨hms, hrs⟩ := Prod.mk.injEq .. ▸ Option.some.injEq .. ▸ h
        exact ⟨[⟨limit, some last_id⟩], hrs.symm, rfl⟩
      · rw [if_neg h2] at h
        obtain ⟨t, ht, _⟩ := ih _ _ _ _ _ h
        exact ⟨⟨limit, some last_id⟩ :: t, by rw [ht]; simp, rfl⟩

/-! ## Claim theorems -/

/-- C1, counterexample: in a state where no shard is ready, with one handler
(number 7) registered for "guild_create" — an event name outside the
allow-list that does not begin with gateway_ — `Client.fire_event` does
suppress the event, but the derived-event path of `handle_dispatches` (the
firing of a translation routine's result) still invokes the handler.  So the
claimed suppression does not extend to the derived events
`Client.handle_dispatches` fires, refuting the claim at this input. -/
theorem ready_gate_bypass_counterexample :
    (StateReady.mk (fun _ => false)).ready 0 = false
    ∧ IGNORE_READY.contains "guild_create" = false
    ∧ pyStartsWith "guild_create" "gateway_" = false
    ∧ Client.fire_event (StateReady.mk (fun _ => false))
        (fun n => if n = "guild_create" then [7] else []) 0 "guild_create" = []
    ∧ Client.handle_dispatches_fire
        (fun n => if n = "guild_create" then [7] else [])
        (.plain "guild_create") = [7] := by
  refine ⟨rfl, by decide, by decide, ?_, ?_⟩
  · rw [Client.fire_event, if_pos (by exact ⟨rfl, by decide, by decide⟩)]
  · rw [Client.handle_dispatches_fire, EventManager.fire_event, if_pos rfl]

/-- C1, amended: for a shard not yet marked ready, an event whose name is
neither in the allow-list nor begins with gateway_ invokes no registered
handler when fired through `Client.fire_event` (the path `handle_shard` uses
for raw gateway events), and allow-listed, gateway_-prefixed or post-ready
events are passed to the event manager normally; the derived events
`Client.handle_dispatches` fires from a translation routine's result,
however, go to `EventManager.fire_event` directly and bypass the readiness
gate entirely, for every result shape. -/
theorem ready_gate_amended (st : StateReady) (reg : Registry) (shard_id : Nat)
    (event_name : String)
    (hready : st.ready shard_id = false)
    (hallow : IGNORE_READY.contains event_name = false)
    (hgw : pyStartsWith event_name "gateway_" = false) :
    Client.fire_event st reg shard_id event_name = []
    ∧ (∀ (st2 : StateReady) (reg2 : Registry) (sh : Nat) (n : String),
        st2.ready sh = true ∨ IGNORE_READY.contains n = true ∨
          pyStartsWith n "gateway_" = true →
        Client.fire_event st2 reg2 sh n = EventManager.fire_event reg2 n)
    ∧ (∀ (reg2 : Registry) (n : String) (args : List Nat)
        (events : List (String × List Nat)),
        Client.handle_dispatches_fire reg2 (.plain n) = EventManager.fire_event reg2 n
        ∧ Client.handle_dispatches_fire reg2 (.tup n args) =
            EventManager.fire_event reg2 n
        ∧ Client.handle_dispatches_fire reg2 (.agen events) =
            (events.map (fun e => EventManager.fire_event reg2 e.1)).flatten) := by
  refine ⟨?_, ?_, ?_⟩
  · rw [Client.fire_event, if_pos ⟨hready, hallow, hgw⟩]
  · intro st2 reg2 sh n hor
    rw [Client.fire_event]
    rw [if_neg]
    intro ⟨h1, h2, h3⟩
    rcases hor with h | h | h <;> simp_all
  · intro reg2 n args events
    exact ⟨rfl, rfl, rfl⟩

/-- C1, witness for the amended theorem: instantiated with the all-shards-not-
ready state, an empty registry, shard 0 and the event name "typing_start". -/
theorem ready_gate_amended_witness :
    Client.fire_event (StateReady.mk (fun _ => false)) (fun _ => []) 0 "typing_start" = []
    ∧ Client.handle_dispatches_fire (fun _ => []) (.plain "message_create") =
        EventManager.fire_event (fun _ => []) "message_create" := by
  have h := ready_gate_amended (StateReady.mk (fun _ => false)) (fun _ => [])
    0 "typing_start" rfl (by decide) (by decide)
  exact ⟨h.1, (h.2.2 (fun _ => []) "message_create" [] []).1⟩

/-- C2: the dispatch-consumption close-handling table of
`Client.handle_shard` — the intentional-shutdown reason stops the shard loop
regardless of code; else close code 1000 or 4007 or a missing session id
resets the shard's cached state and reconnects without resuming; else any
code outside 4004 and 4011 reconnects with a resume; else (4004 or 4011) the
error is re-raised as fatal; and a server-issued reconnect-request signal
always reconnects with a resume. -/
theorem shard_close_decision_table (code : Nat) (reason : String)
    (hasSessionId : Bool) :
    (reason = "Client closed connection" →
      Client.handle_websocket_closed code reason hasSessionId = .stopShard)
    ∧ (reason ≠ "Client closed connection" →
        (code = 1000 ∨ code = 4007 ∨ hasSessionId = false) →
        Client.handle_websocket_closed code reason hasSessionId =
          .resetAndFreshReconnect)
    ∧ (reason ≠ "Client closed connection" →
        ¬(code = 1000 ∨ code = 4007 ∨ hasSessionId = false) →
        code ≠ 4004 → code ≠ 4011 →
        Client.handle_websocket_closed code reason hasSessionId = .resumeReconnect)
    ∧ (reason ≠ "Client closed connection" →
        ¬(code = 1000 ∨ code = 4007 ∨ hasSessionId = false) →
        (code = 4004 ∨ code = 4011) →
        Client.handle_websocket_closed code reason hasSessionId = .reraise)
    ∧ Client.handle_reconnect_websocket = .resumeReconnect := by
  refine ⟨?_, ?_, ?_, ?_, rfl⟩ <;>
    · intros
      unfold Client.handle_websocket_closed
      split_ifs <;> simp_all

/-- C2, witness: the decision table applied with each branch's hypotheses
discharged at concrete inputs — reason sentinel with code 1000; code 1000
normal close with a held session; unlisted code 4000 resuming; code 4004
fatal. -/
theorem shard_close_decision_table_witness :
    Client.handle_websocket_closed 1000 "Client closed connection" true = .stopShard
    ∧ Client.handle_websocket_closed 1000 "" true = .resetAndFreshReconnect
    ∧ Client.handle_websocket_closed 4000 "" true = .resumeReconnect
    ∧ Client.handle_websocket_closed 4004 "" true = .reraise :=
  ⟨(shard_close_decision_table 1000 "Client closed connection" true).1 rfl,
   (shard_close_decision_table 1000 "" true).2.1 (by decide) (by decide),
   (shard_close_decision_table 4000 "" true).2.2.1 (by decide) (by decide)
     (by decide) (by decide),
   (shard_close_decision_table 4004 "" true).2.2.2.1 (by decide) (by decide)
     (by decide)⟩

/-- C3: ten consecutive connection-establishment failures starting from a
fresh counter end the shard loop with the give-up failure after exactly 10
connection attempts, whatever would have come next (no 11th attempt);
a successful connection resets the counter to zero, so a closed or unusable
transport raised from a later reconnect attempt re-enters the retry loop
with the counter at 1, counted as one connection-establishment failure; and
an iteration whose inner close handling completed leaves the counter at 0. -/
theorem shard_retry_budget :
    (∀ rest : List ShardAttempt,
      Client.handle_shard_loop 0 (List.replicate 10 .connectFail ++ rest) =
        (.gaveUp, 10))
    ∧ (∀ (total_tries : Nat) (rest : List ShardAttempt), total_tries ≠ 10 →
        Client.handle_shard_loop total_tries (.okThenRetry :: rest) =
          ((Client.handle_shard_loop 1 rest).1,
            (Client.handle_shard_loop 1 rest).2 + 1))
    ∧ (∀ (total_tries : Nat) (rest : List ShardAttempt), total_tries ≠ 10 →
        Client.handle_shard_loop total_tries (.okThenContinue :: rest) =
          ((Client.handle_shard_loop 0 rest).1,
            (Client.handle_shard_loop 0 rest).2 + 1)) := by
  refine ⟨?_, ?_, ?_⟩
  · intro rest
    simpa using handle_shard_loop_fail_run 10 (by omega) rest
  · intro total_tries rest h
    rw [Client.handle_shard_loop]
    simp [h]
  · intro total_tries rest h
    rw [Client.handle_shard_loop]
    simp [h]

/-- C3, witness: the budget theorem applied with the counter-reset clauses
discharged at counter 0 and the empty continuation script. -/
theorem shard_retry_budget_witness :
    Client.handle_shard_loop 0 (List.replicate 10 .connectFail ++ []) = (.gaveUp, 10)
    ∧ Client.handle_shard_loop 0 [.okThenRetry] =
        ((Client.handle_shard_loop 1 []).1, (Client.handle_shard_loop 1 []).2 + 1) :=
  ⟨shard_retry_budget.1 [], shard_retry_budget.2.1 0 [] (by decide)⟩

/-- C4, code bug: when an uncaught failure (other than the member-chunk
signal) reaches the `except Exception` block of `handle_dispatches`, the log
call's f-string reads the bare name `event`, which is bound neither in the
function's local scope nor in client.py's module globals (line 21 imports it
as `ev_dec`) nor in the Python builtins.  Evaluating the f-string therefore
raises `NameError`: nothing is logged with the event name and payload, the
gateway is never closed with code 1006 / "Internal client error", and the
`NameError` — not the original failure — propagates, contradicting the
claim (the spec describes the evident intent of the three statements in the
block).  The chunk-request signal is still handled separately. -/
theorem dispatch_error_name_error :
    resolvesInHandleDispatches "event" = false
    ∧ Client.handle_dispatches_on_error .other = .raisedNameError "event"
    ∧ Client.handle_dispatches_on_error .other ≠
        .loggedClosedReraised 1006 "Internal client error"
    ∧ Client.handle_dispatches_on_error .chunkGuilds = .requestedChunks := by
  refine ⟨by decide, by decide, by decide, rfl⟩

/-- C5, counterexample: constructing an Emoji (the representative
Dataclass-derived entity) with the client keyword absent succeeds — the
constructor stores the absent reference as `_bot = None` — rather than
failing with InvalidInput, so an entity object exists without an
owning-client reference, refuting the claim at this input. -/
theorem entity_absent_client_counterexample :
    Emoji.init { id := some 1 } =
      .ok { id := 1, bot := none, name := none, role_ids := [],
            require_colons := false, managed := false, guild_id := none,
            animated := false } := rfl

/-- C5, amended: `Dataclass.__init__` stores whatever client reference it is
given without validation, and `Emoji.__init__` succeeds whenever the id key
is present, passing the (possibly absent) client reference straight through
— no InvalidInput is raised for an absent client. -/
theorem entity_client_stored_unchecked (i : Nat) (c : Option ClientRef)
    (name : Option String) (roles : Option (List Nat)) (rc mg an : Option Bool) :
    Dataclass.init i c = { id := i, bot := c }
    ∧ Emoji.init { id := some i, client := c, name := name, roles := roles,
                   require_colons := rc, managed := mg, animated := an } =
        .ok { id := i, bot := c, name := name, role_ids := roles.getD [],
              require_colons := rc.getD false, managed := mg.getD false,
              guild_id := none, animated := an.getD false } :=
  ⟨rfl, rfl⟩

/-- C6: exhaustive member download pages with the last returned member's id
as the next after-cursor and stops exactly when a page comes back empty or
shorter than the limit: with pages of sizes 1000, 1000, 400 and limit 1000 it
issues exactly the 3 page requests (cursors 0, 1000, 2000 — each cursor the
last id so far) and returns 2400 members; with pages 1000, 1000 and then an
empty page it issues exactly 3 requests and returns exactly 2000 members;
and in general a terminating run's final page request fetched an empty page
or one shorter than the limit. -/
theorem download_members_pagination (fetch : Option Nat → List Nat)
    (limit fuel last_id : Nat) (acc ms : List Nat) (reqs rs : List PageRequest)
    (h : downloadAllMembers fetch limit fuel last_id acc reqs = some (ms, rs)) :
    ((Client.download_guild_members fetchPages2400 none 1000 true 4).map
        (fun p => (p.1.length, p.2)) =
      some (2400, [⟨1000, some 0⟩, ⟨1000, some 1000⟩, ⟨1000, some 2000⟩]))
    ∧ ((Client.download_guild_members fetchPages2000 none 1000 true 4).map
        (fun p => (p.1.length, p.2)) =
      some (2000, [⟨1000, some 0⟩, ⟨1000, some 1000⟩, ⟨1000, some 2000⟩]))
    ∧ ∃ r, rs.getLast? = some r ∧
        (fetch r.after = [] ∨ (fetch r.after).length < limit) :=
  ⟨pagination_scenario_2400, pagination_scenario_2000,
   downloadAllMembers_stop fetch limit fuel last_id acc reqs ms rs h⟩

/-- C6, witness: the pagination theorem applied to a one-page empty source
with limit 5, discharging the termination hypothesis there. -/
theorem download_members_pagination_witness :
    ∃ r, ([(⟨5, some 0⟩ : PageRequest)] : List PageRequest).getLast? = some r ∧
      ((fun _ => ([] : List Nat)) r.after = [] ∨
        ((fun _ => ([] : List Nat)) r.after).length < 5) :=
  (download_members_pagination (fun _ => []) 5 1 0 [] [] []
    [⟨5, some 0⟩] (by decide)).2.2

/-- C7, counterexample: supplying the empty-string username — whose length 0
lies outside the inclusive range 2 to 32 — on a bot account raises nothing:
Python's truthiness test `if username:` skips the validation block for the
empty string and exactly one HTTP edit-user request is issued, refuting the
claim's rejection of every supplied username with out-of-range length. -/
theorem edit_profile_empty_username_counterexample :
    ¬(2 ≤ ("" : String).length ∧ ("" : String).length ≤ 32)
    ∧ Client.edit_profile true (some "") none none =
        .ok [{ username := some "", avatar := none, password := none }] :=
  ⟨by decide, rfl⟩

/-- C7, amended: `edit_profile` fails with InvalidInput synchronously —
returning the error with no HTTP request issued — exactly when the logged-in
account is a user account with no password supplied, or the supplied
username is non-empty (Python truthiness) and contains '@', ':' or a
triple-backtick sequence, or equals "discordtag", "everyone" or "here", or
has length outside the inclusive range 2 to 32; an empty-string username
bypasses the validation block.  A call that raises nothing issues exactly
one HTTP edit-user request. -/
theorem edit_profile_validation_amended (userIsBot : Bool)
    (username : Option String) (avatar : Option (List Nat))
    (password : Option String) :
    ((∃ e, Client.edit_profile userIsBot username avatar password = .error e) ↔
      ((userIsBot = false ∧ password = none) ∨
        (usernameTruthy username = true ∧
          (usernameHasBannedChars (username.getD "") = true ∨
            username.getD "" = "discordtag" ∨ username.getD "" = "everyone" ∨
            username.getD "" = "here" ∨
            ¬(2 ≤ (username.getD "").length ∧ (username.getD "").length ≤ 32)))))
    ∧ (∀ calls, Client.edit_profile userIsBot username avatar password = .ok calls →
        calls.length = 1) := by
  unfold Client.edit_profile
  split_ifs with h1 h2 h3 h4 <;> refine ⟨?_, ?_⟩ <;> (simp_all; try tauto)

/-- C7, witness: a valid 10-character alphanumeric username on a bot account
is accepted, and the issued request list has length 1. -/
theorem edit_profile_validation_amended_witness :
    ([{ username := some "goodname12", avatar := none, password := none }] :
      List EditUserCall).length = 1 :=
  (edit_profile_validation_amended true (some "goodname12") none none).2 _ rfl

/-- C8: for every valid 64-bit snowflake s, the timestamp property equals
the UTC calendar time at ((s >> 22) + 1420070400000) milliseconds since the
Unix epoch, and an identity constructed from the decimal string form of s
carries the same snowflake as one constructed from the integer s (the two
comparing equal under IDObject equality). -/
theorem snowflake_timestamp_roundtrip (s : Nat) (_h : s < 2 ^ 64) :
    IDObject.timestamp ⟨s⟩ =
      utc_datetime_from_unix_millis ((s >>> 22) + 1420070400000)
    ∧ IDObject.init (.str (decimalString s)) = some ⟨s⟩
    ∧ IDObject.init (.int s) = some ⟨s⟩
    ∧ IDObject.eq ⟨s⟩ ⟨s⟩ = true := by
  refine ⟨?_, ?_, rfl, by simp [IDObject.eq]⟩
  · show utcfromtimestamp ((((s >>> 22) + DISCORD_EPOCH : Nat) : ℚ) / 1000) = _
    rw [utcfromtimestamp_div_1000]
    rfl
  · simp only [IDObject.init, pyInt_decimalString]
    rfl

/-- C8, witness: the round-trip theorem applied at snowflake 3, with the
64-bit bound discharged there. -/
theorem snowflake_timestamp_roundtrip_witness :
    (3 : Nat) < 2 ^ 64
    ∧ (IDObject.timestamp ⟨3⟩ =
        utc_datetime_from_unix_millis (((3 : Nat) >>> 22) + 1420070400000)
      ∧ IDObject.init (.str (decimalString 3)) = some ⟨3⟩
      ∧ IDObject.init (.int 3) = some ⟨3⟩
      ∧ IDObject.eq ⟨3⟩ ⟨3⟩ = true) :=
  ⟨by norm_num, snowflake_timestamp_roundtrip 3 (by norm_num)⟩

/-- C9: two emojis compare equal exactly when their ids are equal, whatever
their names, guilds and other attributes, and comparing an emoji against a
plain string is always false. -/
theorem emoji_equality_semantics (e1 e2 : Emoji) (s : String) :
    (Emoji.eq e1 (.emoji e2) = true ↔ e1.id = e2.id)
    ∧ Emoji.eq e1 (.str s) = false := by
  constructor
  · simp [Emoji.eq]
  · rfl

/-- C10: in get_all mode the supplied after argument is ignored — the result
is identical for any two after arguments — and the first page request of an
exhaustive download always uses cursor 0. -/
theorem download_all_ignores_after (fetch : Option Nat → List Nat)
    (limit fuel : Nat) (a1 a2 : Option Nat) :
    Client.download_guild_members fetch a1 limit true fuel =
      Client.download_guild_members fetch a2 limit true fuel
    ∧ (∀ (ms : List Nat) (rs : List PageRequest),
        Client.download_guild_members fetch a1 limit true fuel = some (ms, rs) →
        rs.head? = some ⟨limit, some 0⟩) := by
  constructor
  · rfl
  · intro ms rs h
    rw [Client.download_guild_members, if_pos rfl] at h
    obtain ⟨t, ht, hh⟩ :=
      downloadAllMembers_reqs_structure fetch limit fuel 0 [] [] ms rs h
    rw [ht]
    simpa using hh

/-- C10, witness: the cursor-reset theorem applied to a one-page empty
source, discharging the result hypothesis there. -/
theorem download_all_ignores_after_witness :
    Client.download_guild_members (fun _ => []) (some 5) 3 true 1 =
      Client.download_guild_members (fun _ => []) none 3 true 1
    ∧ ([(⟨3, some 0⟩ : PageRequest)] : List PageRequest).head? = some ⟨3, some 0⟩ :=
  ⟨(download_all_ignores_after (fun _ => []) 3 1 (some 5) none).1,
   (download_all_ignores_after (fun _ => []) 3 1 (some 5) none).2 []
     [⟨3, some 0⟩] (by decide)⟩

end Curious
